import Mathlib

/-!
Shallow embedding of the `utctimestamp` Rust crate (src/lib.rs).

Both `UtcTimeStamp` and `TimeDelta` wrap an `i64` counting milliseconds.
Rust's `/` and `%` on `i64` truncate toward zero, which corresponds to
`Int.tdiv` and `Int.tmod` on `Int`.  Overflow behaviour at the extremes of
`i64` is explicitly unspecified inherited behaviour in the reference, so the
embedding uses unbounded `Int` for the arithmetic model; the one place a
genuine machine-width effect occurs (the `as u32` cast in the chrono
conversion) is modelled explicitly as reduction modulo `2 ^ 32`.
-/

/-- Mirrors `pub struct UtcTimeStamp(i64)`: an opaque signed millisecond
count since the UTC epoch.  The single unnamed Rust field is called `ms`. -/
structure UtcTimeStamp where
  ms : Int
deriving DecidableEq, Repr

/-- Mirrors `pub struct TimeDelta(i64)`: a signed millisecond duration. -/
structure TimeDelta where
  ms : Int
deriving DecidableEq, Repr

/-- Mirrors `UtcTimeStamp::zero`. -/
def UtcTimeStamp.zero : UtcTimeStamp := ⟨0⟩

/-- Mirrors `UtcTimeStamp::from_milliseconds`. -/
def UtcTimeStamp.from_milliseconds (int : Int) : UtcTimeStamp := ⟨int⟩

/-- Mirrors `UtcTimeStamp::from_seconds` (`int * 1000`). -/
def UtcTimeStamp.from_seconds (int : Int) : UtcTimeStamp := ⟨int * 1000⟩

/-- Mirrors `UtcTimeStamp::as_milliseconds`. -/
def UtcTimeStamp.as_milliseconds (self : UtcTimeStamp) : Int := self.ms

/-- Mirrors `UtcTimeStamp::is_zero`. -/
def UtcTimeStamp.is_zero (self : UtcTimeStamp) : Bool := self.ms == 0

/-- Mirrors `UtcTimeStamp::align_to_anchored`:
`UtcTimeStamp((self.0 - anchor.0) / freq.0 * freq.0 + anchor.0)` with
truncating `i64` division. -/
def UtcTimeStamp.align_to_anchored (self anchor : UtcTimeStamp)
    (freq : TimeDelta) : UtcTimeStamp :=
  ⟨(self.ms - anchor.ms).tdiv freq.ms * freq.ms + anchor.ms⟩

/-- Mirrors `UtcTimeStamp::align_to`:
`self.align_to_anchored(UtcTimeStamp::zero(), freq)`. -/
def UtcTimeStamp.align_to (self : UtcTimeStamp) (freq : TimeDelta) :
    UtcTimeStamp :=
  self.align_to_anchored UtcTimeStamp.zero freq

/-- Mirrors `impl Add<TimeDelta> for UtcTimeStamp`. -/
def UtcTimeStamp.add (self : UtcTimeStamp) (rhs : TimeDelta) : UtcTimeStamp :=
  ⟨self.ms + rhs.ms⟩

/-- Mirrors `impl Sub<TimeDelta> for UtcTimeStamp`. -/
def UtcTimeStamp.sub_delta (self : UtcTimeStamp) (rhs : TimeDelta) :
    UtcTimeStamp :=
  ⟨self.ms - rhs.ms⟩

/-- Mirrors `impl Sub<UtcTimeStamp> for UtcTimeStamp` (yields a delta). -/
def UtcTimeStamp.sub_stamp (self rhs : UtcTimeStamp) : TimeDelta :=
  ⟨self.ms - rhs.ms⟩

/-- Mirrors the `as u32` cast Rust applies to an `i64`: keep the low 32 bits
(two's-complement truncation), i.e. reduce modulo `2 ^ 32` into `[0, 2^32)`. -/
def i64_as_u32 (x : Int) : Nat := (x.emod (2 ^ 32)).toNat

/-- Seconds argument the crate passes to `chrono::NaiveDateTime::from_timestamp`
in `impl From<UtcTimeStamp> for chrono::DateTime<chrono::Utc>`:
`let sec = other.0 / 1000;` (truncating `i64` division). -/
def UtcTimeStamp.to_datetime_sec (self : UtcTimeStamp) : Int :=
  self.ms.tdiv 1000

/-- Nanoseconds argument the crate passes to
`chrono::NaiveDateTime::from_timestamp`:
`let ns = (other.0 % 1000 * 1_000_000) as u32;` (truncating `i64` remainder,
then a two's-complement cast to `u32`). -/
def UtcTimeStamp.to_datetime_ns (self : UtcTimeStamp) : Nat :=
  i64_as_u32 (self.ms.tmod 1000 * 1000000)

/-- Mirrors `TimeDelta::zero`. -/
def TimeDelta.zero : TimeDelta := ⟨0⟩

/-- Mirrors `TimeDelta::from_seconds` (`int * 1000`). -/
def TimeDelta.from_seconds (int : Int) : TimeDelta := ⟨int * 1000⟩

/-- Mirrors `TimeDelta::from_minutes` (`from_seconds(int * 60)`). -/
def TimeDelta.from_minutes (int : Int) : TimeDelta :=
  TimeDelta.from_seconds (int * 60)

/-- Mirrors `TimeDelta::from_hours` (`from_minutes(int * 60)`). -/
def TimeDelta.from_hours (int : Int) : TimeDelta :=
  TimeDelta.from_minutes (int * 60)

/-- Mirrors `TimeDelta::from_milliseconds`. -/
def TimeDelta.from_milliseconds (int : Int) : TimeDelta := ⟨int⟩

/-- Mirrors `TimeDelta::as_milliseconds`. -/
def TimeDelta.as_milliseconds (self : TimeDelta) : Int := self.ms

/-- Mirrors `TimeDelta::is_zero`. -/
def TimeDelta.is_zero (self : TimeDelta) : Bool := self.ms == 0

/-- Mirrors `TimeDelta::is_positive` (strictly positive). -/
def TimeDelta.is_positive (self : TimeDelta) : Bool := decide (0 < self.ms)

/-- Mirrors `TimeDelta::is_negative` (strictly negative). -/
def TimeDelta.is_negative (self : TimeDelta) : Bool := decide (self.ms < 0)

/-- Mirrors `impl Add<TimeDelta> for TimeDelta`. -/
def TimeDelta.add (self rhs : TimeDelta) : TimeDelta := ⟨self.ms + rhs.ms⟩

/-- Mirrors `impl Sub<TimeDelta> for TimeDelta`. -/
def TimeDelta.sub (self rhs : TimeDelta) : TimeDelta := ⟨self.ms - rhs.ms⟩

/-- Mirrors `impl Mul<i64> for TimeDelta`. -/
def TimeDelta.mul_int (self : TimeDelta) (rhs : Int) : TimeDelta :=
  ⟨self.ms * rhs⟩

/-- Mirrors `impl Div<i64> for TimeDelta` (truncating division). -/
def TimeDelta.div_int (self : TimeDelta) (rhs : Int) : TimeDelta :=
  ⟨self.ms.tdiv rhs⟩

/-- Mirrors `impl Div<TimeDelta> for TimeDelta` (truncating, yields `i64`). -/
def TimeDelta.div_delta (self rhs : TimeDelta) : Int :=
  self.ms.tdiv rhs.ms

/-- Mirrors `impl Rem<TimeDelta> for TimeDelta` (truncating remainder). -/
def TimeDelta.rem_delta (self rhs : TimeDelta) : TimeDelta :=
  ⟨self.ms.tmod rhs.ms⟩

/-- Rust's `/` on `i64` panics when the divisor is zero.  This models
`impl Div<i64> for TimeDelta` as the fallible operation it is: `none` is the
panic on a zero divisor, `some` is the normal result. -/
def TimeDelta.div_int_checked (self : TimeDelta) (rhs : Int) :
    Option TimeDelta :=
  if rhs = 0 then none else some (self.div_int rhs)

/-- Fallible model of `impl Div<TimeDelta> for TimeDelta`: `none` is the
panic on a zero divisor. -/
def TimeDelta.div_delta_checked (self rhs : TimeDelta) : Option Int :=
  if rhs.ms = 0 then none else some (self.div_delta rhs)

/-- Fallible model of `impl Rem<TimeDelta> for TimeDelta`: `none` is the
panic on a zero divisor. -/
def TimeDelta.rem_delta_checked (self rhs : TimeDelta) : Option TimeDelta :=
  if rhs.ms = 0 then none else some (self.rem_delta rhs)

/-- Fallible model of `UtcTimeStamp::align_to_anchored`: `none` is the panic
of the interior `i64` division on a zero frequency. -/
def UtcTimeStamp.align_to_anchored_checked (self anchor : UtcTimeStamp)
    (freq : TimeDelta) : Option UtcTimeStamp :=
  if freq.ms = 0 then none else some (self.align_to_anchored anchor freq)

/-- Mirrors `pub struct TimeRange`.  The Rust field `end` is a Lean keyword,
so it is called `end_` here. -/
structure TimeRange where
  cur : UtcTimeStamp
  end_ : UtcTimeStamp
  step : TimeDelta
  right_closed : Bool
deriving DecidableEq, Repr

/-- Mirrors `TimeRange::right_closed` (the constructor). -/
def TimeRange.mk_right_closed (start end_ : UtcTimeStamp) (step : TimeDelta) :
    TimeRange :=
  ⟨start, end_, step, true⟩

/-- Mirrors `TimeRange::right_open` (the constructor). -/
def TimeRange.mk_right_open (start end_ : UtcTimeStamp) (step : TimeDelta) :
    TimeRange :=
  ⟨start, end_, step, false⟩

/-- The `exhausted` test computed at the top of `<TimeRange as Iterator>::next`:
`self.cur > self.end` if right-closed, `self.cur >= self.end` if right-open.
The derived `Ord` on the `repr(transparent)` wrapper is the `i64` order. -/
def TimeRange.exhausted (self : TimeRange) : Bool :=
  if self.right_closed then decide (self.cur.ms > self.end_.ms)
  else decide (self.cur.ms ≥ self.end_.ms)

/-- Mirrors `<TimeRange as Iterator>::next` with the `&mut self` mutation made
explicit: returns the yielded item (if any) together with the updated state.
On exhaustion the state is returned untouched; otherwise the old cursor is
yielded and the cursor advances by `step` (`self.cur += self.step`). -/
def TimeRange.next (self : TimeRange) : Option UtcTimeStamp × TimeRange :=
  if self.exhausted then (none, self)
  else (some self.cur, { self with cur := self.cur.add self.step })

/-- Collect at most `fuel` items from a `TimeRange` by repeatedly calling
`next`, stopping early on exhaustion (a bounded version of `collect`). -/
def TimeRange.collect : Nat → TimeRange → List UtcTimeStamp
  | 0, _ => []
  | fuel + 1, tr =>
    match tr.next with
    | (none, _) => []
    | (some v, tr') => v :: TimeRange.collect fuel tr'

/-- Apply `next` `n` times, keeping only the state. -/
def TimeRange.runSteps : Nat → TimeRange → TimeRange
  | 0, tr => tr
  | n + 1, tr => TimeRange.runSteps n tr.next.2

/-- Restatement of the spec's alignment formula in its own words, to be
compared with the source-derived `UtcTimeStamp.align_to_anchored`:
"((self − anchor) integer-divided by freq, truncated toward zero, then
multiplied by freq) + anchor". -/
def align_to_anchored_spec_model (self anchor freq : Int) : Int :=
  (self - anchor).tdiv freq * freq + anchor

/-- Negating the dividend negates the truncating remainder. -/
theorem tmod_neg_dividend (a b : Int) : (-a).tmod b = -(a.tmod b) := by
  rw [Int.tmod_def, Int.tmod_def, Int.neg_tdiv]
  ring

/-- For a nonpositive dividend the truncating remainder is nonpositive. -/
theorem tmod_nonpos_of_nonpos {a : Int} (b : Int) (ha : a ≤ 0) :
    a.tmod b ≤ 0 := by
  have h := tmod_neg_dividend (-a) b
  rw [neg_neg] at h
  have hn : 0 ≤ (-a).tmod b := Int.tmod_nonneg b (by omega)
  omega

/-- Claim C1: `align_to_anchored(anchor, freq)` returns the timestamp whose
millisecond value is `((self − anchor) tdiv freq) * freq + anchor`
(truncating division), and `align_to(freq)` is `align_to_anchored` with the
zero anchor. -/
theorem C1_align_formula (self anchor : UtcTimeStamp) (freq : TimeDelta)
    (h : freq.ms ≠ 0) :
    (self.align_to_anchored anchor freq).ms
      = align_to_anchored_spec_model self.ms anchor.ms freq.ms ∧
    self.align_to freq = self.align_to_anchored UtcTimeStamp.zero freq :=
  ⟨rfl, rfl⟩

/-- Witness for C1 at the spec's own example: `2020-09-28T19:32:51Z` aligned
to 5 minutes anchored at `2020-09-28T00:00:00Z` is `2020-09-28T19:30:00Z`
(milliseconds 1601321571000, 1601251200000, 300000, 1601321400000). -/
theorem C1_align_formula_witness :
    (UtcTimeStamp.align_to_anchored ⟨1601321571000⟩ ⟨1601251200000⟩
        ⟨300000⟩).ms
      = align_to_anchored_spec_model 1601321571000 1601251200000 300000 ∧
    UtcTimeStamp.align_to_anchored ⟨1601321571000⟩ ⟨1601251200000⟩ ⟨300000⟩
      = ⟨1601321400000⟩ :=
  ⟨(C1_align_formula ⟨1601321571000⟩ ⟨1601251200000⟩ ⟨300000⟩
      (by decide)).1,
    by decide⟩

/-- Claim C2: a production request first tests exhaustion (`cur > end` when
right-closed, `cur ≥ end` when right-open); when exhausted it yields nothing,
otherwise it yields the cursor and advances it by `step`.  Consequently the
right-closed range from 2019-04-14T00:00:00Z to 2019-04-16T00:00:00Z with a
12-hour step yields exactly the five listed timestamps and the right-open
range the same minus the last. -/
theorem C2_range_next_and_example :
    (∀ tr : TimeRange,
      tr.exhausted
          = (if tr.right_closed then decide (tr.cur.ms > tr.end_.ms)
             else decide (tr.cur.ms ≥ tr.end_.ms)) ∧
      (tr.exhausted = true → tr.next = (none, tr)) ∧
      (tr.exhausted = false →
        tr.next
          = (some tr.cur,
             ⟨tr.cur.add tr.step, tr.end_, tr.step, tr.right_closed⟩))) ∧
    TimeRange.collect 16
        (TimeRange.mk_right_closed ⟨1555200000000⟩ ⟨1555372800000⟩
          ⟨43200000⟩)
      = [⟨1555200000000⟩, ⟨1555243200000⟩, ⟨1555286400000⟩,
         ⟨1555329600000⟩, ⟨1555372800000⟩] ∧
    TimeRange.collect 16
        (TimeRange.mk_right_open ⟨1555200000000⟩ ⟨1555372800000⟩
          ⟨43200000⟩)
      = [⟨1555200000000⟩, ⟨1555243200000⟩, ⟨1555286400000⟩,
         ⟨1555329600000⟩] := by
  refine ⟨fun tr => ⟨rfl, fun h => ?_, fun h => ?_⟩, by decide, by decide⟩
  · simp [TimeRange.next, h]
  · simp [TimeRange.next, h]

/-- Witness for C2: the exhausted branch at a concrete state (cursor 5 past
end 3) and the yielding branch at a concrete state (cursor 0, end 3). -/
theorem C2_range_next_and_example_witness :
    (⟨⟨5⟩, ⟨3⟩, ⟨1⟩, true⟩ : TimeRange).next
      = (none, (⟨⟨5⟩, ⟨3⟩, ⟨1⟩, true⟩ : TimeRange)) ∧
    (⟨⟨0⟩, ⟨3⟩, ⟨1⟩, true⟩ : TimeRange).next
      = (some ⟨0⟩, (⟨⟨1⟩, ⟨3⟩, ⟨1⟩, true⟩ : TimeRange)) :=
  ⟨(C2_range_next_and_example.1 ⟨⟨5⟩, ⟨3⟩, ⟨1⟩, true⟩).2.1 (by decide),
   (C2_range_next_and_example.1 ⟨⟨0⟩, ⟨3⟩, ⟨1⟩, true⟩).2.2 (by decide)⟩

/-- Counterexample to claim C3 as stated: with start 0, end 1 (end greater
than start) and the non-positive step −1, the first production request of
either mode yields the start value instead of reporting exhaustion. -/
theorem C3_counterexample :
    (-1 : Int) ≤ 0 ∧ (0 : Int) < 1 ∧
    (TimeRange.mk_right_closed ⟨0⟩ ⟨1⟩ ⟨-1⟩).next.1 = some ⟨0⟩ ∧
    (TimeRange.mk_right_open ⟨0⟩ ⟨1⟩ ⟨-1⟩).next.1 = some ⟨0⟩ := by
  decide

/-- Claim C3 amended: with end LESS than start (the direction the code
actually rejects immediately), a non-positive step gives an
immediately-exhausted sequence in either closedness mode. -/
theorem C3_amended_empty (start end_ : UtcTimeStamp) (step : TimeDelta)
    (hstep : step.ms ≤ 0) (hlt : end_.ms < start.ms) :
    (TimeRange.mk_right_closed start end_ step).next.1 = none ∧
    (TimeRange.mk_right_open start end_ step).next.1 = none := by
  have h1 : (TimeRange.mk_right_closed start end_ step).exhausted = true := by
    simp only [TimeRange.mk_right_closed, TimeRange.exhausted, if_true,
      decide_eq_true_eq]
    omega
  have h2 : (TimeRange.mk_right_open start end_ step).exhausted = true := by
    simp only [TimeRange.mk_right_open, TimeRange.exhausted, if_false,
      decide_eq_true_eq, Bool.false_eq_true]
    omega
  exact ⟨by simp [TimeRange.next, h1], by simp [TimeRange.next, h2]⟩

/-- Witness for the amended C3 at start 10, end 3, step −2. -/
theorem C3_amended_empty_witness :
    (TimeRange.mk_right_closed ⟨10⟩ ⟨3⟩ ⟨-2⟩).next.1 = none ∧
    (TimeRange.mk_right_open ⟨10⟩ ⟨3⟩ ⟨-2⟩).next.1 = none :=
  C3_amended_empty ⟨10⟩ ⟨3⟩ ⟨-2⟩ (by decide) (by decide)

/-- Counterexample to claim C4 as stated: at ms = −1500 the code computes a
seconds component of −1 (truncating division), while floor(−1500 / 1000) is
−2; the nanosecond argument becomes the two's-complement cast 3794967296
rather than any floor-corrected remainder. -/
theorem C4_counterexample :
    (UtcTimeStamp.from_milliseconds (-1500)).to_datetime_sec = -1 ∧
    (-1500 : Int).fdiv 1000 = -2 ∧
    (UtcTimeStamp.from_milliseconds (-1500)).to_datetime_ns
      = 3794967296 := by
  decide

/-- Claim C4 amended: the conversion computes seconds by truncating (toward
zero) division `ms tdiv 1000` and nanoseconds as the u32 cast of
`(ms tmod 1000) * 1_000_000`.  The seconds component equals
floor(ms / 1000) for non-negative ms, but for negative ms not divisible by
1000 no floor-correction is applied: the computed value is floor + 1. -/
theorem C4_amended_truncating (ms : Int) :
    (UtcTimeStamp.from_milliseconds ms).to_datetime_sec = ms.tdiv 1000 ∧
    (UtcTimeStamp.from_milliseconds ms).to_datetime_ns
      = i64_as_u32 (ms.tmod 1000 * 1000000) ∧
    (0 ≤ ms →
      (UtcTimeStamp.from_milliseconds ms).to_datetime_sec = ms.fdiv 1000) ∧
    (ms < 0 → ms.tmod 1000 ≠ 0 →
      (UtcTimeStamp.from_milliseconds ms).to_datetime_sec
        = ms.fdiv 1000 + 1) := by
  refine ⟨rfl, rfl, fun h => ?_, fun hneg hnd => ?_⟩
  · show ms.tdiv 1000 = ms.fdiv 1000
    rw [Int.fdiv_eq_tdiv h (by omega)]
  · show ms.tdiv 1000 = ms.fdiv 1000 + 1
    rw [Int.fdiv_eq_ediv ms (by omega)]
    have h1 : (1000 : Int) * ms.tdiv 1000 + ms.tmod 1000 = ms :=
      Int.tdiv_add_tmod ms 1000
    have h2 : (1000 : Int) * (ms / 1000) + ms % 1000 = ms :=
      Int.ediv_add_emod ms 1000
    have h3 : ms.tmod 1000 ≤ 0 := tmod_nonpos_of_nonpos 1000 (by omega)
    have h4 : -((1000 : Int)) < ms.tmod 1000 := by
      have ha := tmod_neg_dividend (-ms) 1000
      rw [neg_neg] at ha
      have hb : (-ms).tmod 1000 < 1000 := Int.tmod_lt_of_pos (-ms) (by omega)
      omega
    have h5 : 0 ≤ ms % 1000 := Int.emod_nonneg ms (by omega)
    have h6 : ms % 1000 < 1000 := Int.emod_lt_of_pos ms (by omega)
    omega

/-- Witness for the amended C4 at ms = 2500 (non-negative branch) and at
ms = −1500 (negative, not divisible branch). -/
theorem C4_amended_truncating_witness :
    (UtcTimeStamp.from_milliseconds 2500).to_datetime_sec
      = (2500 : Int).fdiv 1000 ∧
    (UtcTimeStamp.from_milliseconds (-1500)).to_datetime_sec
      = (-1500 : Int).fdiv 1000 + 1 :=
  ⟨(C4_amended_truncating 2500).2.2.1 (by decide),
   (C4_amended_truncating (-1500)).2.2.2 (by decide) (by decide)⟩

/-- Claim C5: for every Duration `a` and non-zero Duration `b`, the truncated
quotient `a / b` times `b` plus the remainder `a % b` equals `a`, and the
remainder follows the truncating sign convention: it has the sign of the
dividend (or is zero). -/
theorem C5_div_mod_law (a b : TimeDelta) (h : b.ms ≠ 0) :
    (b.mul_int (a.div_delta b)).add (a.rem_delta b) = a ∧
    (0 ≤ a.ms → 0 ≤ (a.rem_delta b).ms) ∧
    (a.ms ≤ 0 → (a.rem_delta b).ms ≤ 0) := by
  refine ⟨?_, fun ha => ?_, fun ha => ?_⟩
  · cases a with
    | mk am =>
      cases b with
      | mk bm =>
        simp only [TimeDelta.mul_int, TimeDelta.div_delta, TimeDelta.rem_delta,
          TimeDelta.add, TimeDelta.mk.injEq]
        exact Int.tdiv_add_tmod am bm
  · exact Int.tmod_nonneg b.ms ha
  · exact tmod_nonpos_of_nonpos b.ms ha

/-- Witness for C5 at a = −7 ms, b = 2 ms (quotient −3, remainder −1). -/
theorem C5_div_mod_law_witness :
    (TimeDelta.mul_int ⟨2⟩ (TimeDelta.div_delta ⟨-7⟩ ⟨2⟩)).add
        (TimeDelta.rem_delta ⟨-7⟩ ⟨2⟩) = ⟨-7⟩ ∧
    (TimeDelta.rem_delta ⟨-7⟩ ⟨2⟩).ms ≤ 0 :=
  ⟨(C5_div_mod_law ⟨-7⟩ ⟨2⟩ (by decide)).1,
   (C5_div_mod_law ⟨-7⟩ ⟨2⟩ (by decide)).2.2 (by decide)⟩

/-- Claim C6: for every Timestamp `t` and Duration `d`, `(t + d) − d = t`
(Timestamp minus Duration) and `(t + d) − t = d` (Timestamp minus Timestamp
yields a Duration). -/
theorem C6_add_sub_identities (t : UtcTimeStamp) (d : TimeDelta) :
    (t.add d).sub_delta d = t ∧ (t.add d).sub_stamp t = d := by
  cases t with
  | mk tm =>
    cases d with
    | mk dm =>
      simp [UtcTimeStamp.add, UtcTimeStamp.sub_delta, UtcTimeStamp.sub_stamp]

/-- Claim C7: aligning twice to the same non-zero frequency equals aligning
once: `t.align_to(freq).align_to(freq) = t.align_to(freq)`. -/
theorem C7_align_idempotent (t : UtcTimeStamp) (freq : TimeDelta)
    (h : freq.ms ≠ 0) :
    (t.align_to freq).align_to freq = t.align_to freq := by
  cases t with
  | mk tm =>
    cases freq with
    | mk fm =>
      simp only [UtcTimeStamp.align_to, UtcTimeStamp.align_to_anchored,
        UtcTimeStamp.zero, sub_zero, add_zero, UtcTimeStamp.mk.injEq]
      rw [Int.mul_tdiv_cancel _ h]

/-- Witness for C7 at t = 70371000 ms, freq = 300000 ms. -/
theorem C7_align_idempotent_witness :
    (UtcTimeStamp.align_to (UtcTimeStamp.align_to ⟨70371000⟩ ⟨300000⟩)
        ⟨300000⟩)
      = UtcTimeStamp.align_to ⟨70371000⟩ ⟨300000⟩ :=
  C7_align_idempotent ⟨70371000⟩ ⟨300000⟩ (by decide)

/-- Claim C8: with a non-zero divisor/frequency the fallible models of
Duration division (by integer and by Duration), Duration remainder, and
`align_to_anchored` all succeed with the unchecked result (the
division-by-zero branch is unreachable); with a zero divisor/frequency each
reports the division-by-zero failure (`none`, the reference's panic). -/
theorem C8_div_zero_guard (a b : TimeDelta) (n : Int)
    (t anchor : UtcTimeStamp) (freq : TimeDelta)
    (hn : n ≠ 0) (hb : b.ms ≠ 0) (hf : freq.ms ≠ 0) :
    a.div_int_checked n = some (a.div_int n) ∧
    a.div_delta_checked b = some (a.div_delta b) ∧
    a.rem_delta_checked b = some (a.rem_delta b) ∧
    t.align_to_anchored_checked anchor freq
      = some (t.align_to_anchored anchor freq) ∧
    a.div_int_checked 0 = none ∧
    a.div_delta_checked TimeDelta.zero = none ∧
    a.rem_delta_checked TimeDelta.zero = none ∧
    t.align_to_anchored_checked anchor TimeDelta.zero = none := by
  refine ⟨?_, ?_, ?_, ?_, ?_, ?_, ?_, ?_⟩ <;>
    simp [TimeDelta.div_int_checked, TimeDelta.div_delta_checked,
      TimeDelta.rem_delta_checked, UtcTimeStamp.align_to_anchored_checked,
      TimeDelta.zero, hn, hb, hf]

/-- Witness for C8 at a = 7 ms, b = 2 ms, n = 3, t = 10 ms, anchor = 1 ms,
freq = 4 ms. -/
theorem C8_div_zero_guard_witness :
    TimeDelta.div_int_checked ⟨7⟩ 3 = some (TimeDelta.div_int ⟨7⟩ 3) ∧
    TimeDelta.div_delta_checked ⟨7⟩ ⟨2⟩
      = some (TimeDelta.div_delta ⟨7⟩ ⟨2⟩) ∧
    TimeDelta.div_int_checked ⟨7⟩ 0 = none ∧
    UtcTimeStamp.align_to_anchored_checked ⟨10⟩ ⟨1⟩ TimeDelta.zero = none := by
  have h := C8_div_zero_guard ⟨7⟩ ⟨2⟩ 3 ⟨10⟩ ⟨1⟩ ⟨4⟩ (by decide) (by decide)
    (by decide)
  exact ⟨h.1, h.2.1, h.2.2.2.2.1, h.2.2.2.2.2.2.2⟩

/-- Claim C9: exhaustion is sticky.  If a production request reports
exhaustion, then after any number of further production requests the
generator still reports exhaustion and never yields a value again. -/
theorem C9_exhaustion_sticky (tr : TimeRange) (h : tr.next.1 = none) :
    ∀ n : Nat, (TimeRange.runSteps n tr).next.1 = none := by
  have hstate : tr.next.2 = tr := by
    by_cases he : tr.exhausted
    · simp [TimeRange.next, he]
    · simp [TimeRange.next, he] at h
  have hfix : ∀ n : Nat, TimeRange.runSteps n tr = tr := by
    intro n
    induction n with
    | zero => rfl
    | succ n ih =>
      show TimeRange.runSteps n tr.next.2 = tr
      rw [hstate, ih]
  intro n
  rw [hfix n]
  exact h

/-- Witness for C9: a right-closed range already past its end stays
exhausted after three further requests. -/
theorem C9_exhaustion_sticky_witness :
    (TimeRange.runSteps 3 ⟨⟨5⟩, ⟨3⟩, ⟨1⟩, true⟩).next.1 = none :=
  C9_exhaustion_sticky ⟨⟨5⟩, ⟨3⟩, ⟨1⟩, true⟩ (by decide) 3

/-- Claim C10: a production request never changes the end bound, the step,
or the closedness flag, and on an exhausted request the whole state (cursor
included) is unchanged. -/
theorem C10_frame (tr : TimeRange) :
    tr.next.2.end_ = tr.end_ ∧
    tr.next.2.step = tr.step ∧
    tr.next.2.right_closed = tr.right_closed ∧
    (tr.next.1 = none → tr.next.2 = tr) := by
  by_cases he : tr.exhausted <;> simp [TimeRange.next, he]

/-- Witness for C10 at a concrete exhausted state (cursor 9 past end 4). -/
theorem C10_frame_witness :
    (⟨⟨9⟩, ⟨4⟩, ⟨2⟩, true⟩ : TimeRange).next.2
      = (⟨⟨9⟩, ⟨4⟩, ⟨2⟩, true⟩ : TimeRange) :=
  (C10_frame ⟨⟨9⟩, ⟨4⟩, ⟨2⟩, true⟩).2.2.2 (by decide)
